import Mathlib

/-!
Verification of the padded-sharding and recoverable-subset benchmark harness
(`src/main.rs`). The Rust source is shallowly embedded: `usize` arithmetic
becomes `Nat` (sizes here stay far below 2^64, per the design note that the
integers are wide enough for tens of gigabytes), `f64` durations become exact
rationals, byte buffers become `List Nat`, and the external Reed-Solomon
engine becomes an abstract record of fallible operations returning `Except`.
A panic from `.unwrap()` is modelled as an `Except.error` carrying the failing
call site (the information Rust's panic location provides) together with the
engine's error value.
-/

namespace RsBench

/-- Embedding of `calculate_padded_size` (src/main.rs lines 13-17):
`base_shard_size = (size + n - 1) / n`, `shard_size` rounds that up to the
nearest multiple of 64, and the result is `shard_size * n`. -/
def calculate_padded_size (size num_original_shards : Nat) : Nat :=
  let base_shard_size := (size + num_original_shards - 1) / num_original_shards
  let shard_size := ((base_shard_size + 63) / 64) * 64
  shard_size * num_original_shards

/-- Spec-side definition (`roundUpToMultipleOf`, spec section 4.1): the least
multiple of `m` that is `≥ x` (for `m > 0`), written as the spec's rounding
formula. -/
def roundUpToMultipleOf (x m : Nat) : Nat :=
  ((x + m - 1) / m) * m

/-- Spec-side definition of `ceil(S / N)` as used by the spec's
`PaddedShardPlanner` description. -/
def ceilDivSpec (s n : Nat) : Nat :=
  (s + n - 1) / n

/-- Worker for `chunks`: the `fuel` argument (structurally decreasing, so the
definition stays kernel-computable) bounds the number of chunks still to be
produced; `fuel = l.length` always suffices when `c ≥ 1`. -/
def chunksGo (c : Nat) : Nat → List α → List (List α)
  | _, [] => []
  | 0, _ :: _ => []
  | fuel + 1, x :: xs => (x :: xs).take c :: chunksGo c fuel ((x :: xs).drop c)

/-- Embedding of Rust's `slice::chunks` as used on line 56: consecutive chunks
of `c` elements each, the last one possibly shorter. Rust panics on `c = 0`;
the harness only ever calls it with `c ≥ 64`, and the embedding returns `[]`
in that unreachable case. -/
def chunks (c : Nat) (l : List α) : List (List α) :=
  if c = 0 then [] else chunksGo c l.length l

/-- Embedding of `generate_random_data` (lines 7-10): the thread RNG is
abstracted as a byte stream `rng`; the function returns `size` successive
bytes of it, so its only relevant property is its length. -/
def generate_random_data (rng : Nat → Nat) (size : Nat) : List Nat :=
  (List.range size).map rng

/-- The compiled-in size matrix (lines 20-24). -/
def sizes : List (String × Nat) :=
  [("1MB", 1024 * 1024),
   ("1GB", 1024 * 1024 * 1024),
   ("3GB", 2 * 1024 * 1024 * 1024)]

/-- The compiled-in shard configurations (lines 26-31). -/
def shard_configs : List (Nat × Nat) :=
  [(21, 10), (67, 33), (201, 100), (667, 333)]

/-- Maximum of a list of naturals; Rust's `Iterator::max().unwrap()` on the
nonempty lists of the harness agrees with `foldl max 0` on `Nat`. -/
def listMax (l : List Nat) : Nat :=
  l.foldl max 0

/-- The length requested for the single random buffer (lines 34-48): the
maximum over sizes of the maximum over shard configs of the padded size. -/
def max_data_len : Nat :=
  listMax (sizes.map fun p =>
    listMax (shard_configs.map fun q => calculate_padded_size p.2 q.1))

/-- The external Reed-Solomon engine (`reed_solomon_simd`), abstracted as a
record of fallible operations: `ε` is the engine's error type, `Enc`/`Dec`
the encoder/decoder states. Only the contract consumed by the harness is
modelled; the arithmetic itself is an external collaborator. -/
structure Engine (ε Enc Dec : Type) where
  encoderNew : Nat → Nat → Nat → Except ε Enc
  addOriginalShard : Enc → List Nat → Except ε Enc
  encode : Enc → Except ε (List (List Nat))
  decoderNew : Nat → Nat → Nat → Except ε Dec
  decoderAddOriginal : Dec → Nat → List Nat → Except ε Dec
  decoderAddRecovery : Dec → Nat → List Nat → Except ε Dec
  decode : Dec → Except ε (List (List Nat))

/-- The seven `.unwrap()` call sites on engine results (lines 77, 80, 84, 95,
99, 102, 106). A Rust panic reports its source location, which distinguishes
these sites, so the modelled panic payload is a call site paired with the
engine's error value. -/
inductive CallSite where
  | encoderNew
  | addOriginalEnc
  | encodeCall
  | decoderNew
  | addOriginalDec
  | addRecoveryDec
  | decodeCall
  deriving DecidableEq, Repr

/-- Feeding every original shard to the encoder (lines 79-81); each
`.unwrap()` aborts with the call site and engine error. -/
def addOriginalShards (E : Engine ε Enc Dec) (enc : Enc) :
    List (List Nat) → Except (CallSite × ε) Enc
  | [] => .ok enc
  | sh :: rest =>
    match E.addOriginalShard enc sh with
    | .error e => .error (.addOriginalEnc, e)
    | .ok enc2 => addOriginalShards E enc2 rest

/-- The original shards supplied to the decoder (line 98):
`original.iter().enumerate().skip(num_recovery_shards)`, i.e. index-value
pairs with the first `r` withheld. -/
def decodeOriginalInput (original : List (List Nat)) (r : Nat) :
    List (Nat × List Nat) :=
  original.enum.drop r

/-- The recovery shards supplied to the decoder (line 101):
`recovery.iter().enumerate()`, i.e. all of them with their indices. -/
def decodeRecoveryInput (recovery : List (List Nat)) : List (Nat × List Nat) :=
  recovery.enum

/-- Lines 98-100: adding the surviving original shards to the decoder. -/
def addDecoderOriginals (E : Engine ε Enc Dec) (dec : Dec) :
    List (Nat × List Nat) → Except (CallSite × ε) Dec
  | [] => .ok dec
  | (i, sh) :: rest =>
    match E.decoderAddOriginal dec i sh with
    | .error e => .error (.addOriginalDec, e)
    | .ok dec2 => addDecoderOriginals E dec2 rest

/-- Lines 101-103: adding all recovery shards to the decoder. -/
def addDecoderRecoveries (E : Engine ε Enc Dec) (dec : Dec) :
    List (Nat × List Nat) → Except (CallSite × ε) Dec
  | [] => .ok dec
  | (i, sh) :: rest =>
    match E.decoderAddRecovery dec i sh with
    | .error e => .error (.addRecoveryDec, e)
    | .ok dec2 => addDecoderRecoveries E dec2 rest

/-- One iteration of the `for _ in 0..3` trial loop (lines 71-106), with the
wall-clock reads factored out: encoder construction, shard feeding, encode,
decoder construction, recoverable-subset feeding, decode. The decoded shards
are dropped exactly as line 106 drops the result of `decoder.decode()`. -/
def runTrial (E : Engine ε Enc Dec) (numOriginal numRecovery shardSize : Nat)
    (original : List (List Nat)) : Except (CallSite × ε) Unit :=
  match E.encoderNew numOriginal numRecovery shardSize with
  | .error e => .error (.encoderNew, e)
  | .ok enc =>
    match addOriginalShards E enc original with
    | .error p => .error p
    | .ok enc2 =>
      match E.encode enc2 with
      | .error e => .error (.encodeCall, e)
      | .ok recovery =>
        match E.decoderNew numOriginal numRecovery shardSize with
        | .error e => .error (.decoderNew, e)
        | .ok dec =>
          match addDecoderOriginals E dec
              (decodeOriginalInput original numRecovery) with
          | .error p => .error p
          | .ok dec2 =>
            match addDecoderRecoveries E dec2
                (decodeRecoveryInput recovery) with
            | .error p => .error p
            | .ok dec3 =>
              match E.decode dec3 with
              | .error e => .error (.decodeCall, e)
              | .ok _reconstructed => .ok ()

/-- The trial loop (lines 66-109): runs the listed trials in order,
accumulating the measured durations. Wall-clock time is not statable, so the
per-trial encode/decode durations are supplied by oracles `encTime`/`decTime`
(exact rationals standing for the `f64` seconds). -/
def runTrialsFrom (E : Engine ε Enc Dec) (numOriginal numRecovery shardSize : Nat)
    (original : List (List Nat)) (encTime decTime : Nat → ℚ) :
    List Nat → ℚ × ℚ → Except (CallSite × ε) (ℚ × ℚ)
  | [], tot => .ok tot
  | i :: rest, tot =>
    match runTrial E numOriginal numRecovery shardSize original with
    | .error p => .error p
    | .ok _ =>
      runTrialsFrom E numOriginal numRecovery shardSize original encTime decTime
        rest (tot.1 + encTime i, tot.2 + decTime i)

/-- `for _ in 0..3` with the two duration accumulators starting at `0.0`. -/
def runTrials (E : Engine ε Enc Dec) (numOriginal numRecovery shardSize : Nat)
    (original : List (List Nat)) (encTime decTime : Nat → ℚ) :
    Except (CallSite × ε) (ℚ × ℚ) :=
  runTrialsFrom E numOriginal numRecovery shardSize original encTime decTime
    (List.range 3) (0, 0)

/-- One printed record pair per configuration (lines 111-117). -/
structure ConfigReport where
  label : String
  numOriginal : Nat
  numRecovery : Nat
  avgEncode : ℚ
  avgDecode : ℚ
  throughputEncode : ℚ
  throughputDecode : ℚ
  deriving DecidableEq, Repr

/-- What one loop iteration produces: either the skip diagnostic of lines
59-63 or a report. -/
inductive ConfigOutcome where
  | skipped (msg : String)
  | reported (r : ConfigReport)
  deriving DecidableEq, Repr

/-- Lines 113-114: GiB/s throughput, `size as f64 / avg / 1_073_741_824.0`,
with the *logical* size as numerator. -/
def throughputGiB (size : Nat) (avg : ℚ) : ℚ :=
  (size : ℚ) / avg / 1073741824

/-- The diagnostic printed by lines 59-62 before `continue`. -/
def skipMessage (numOriginal : Nat) (label : String) : String :=
  "Data size too small to divide into " ++ toString numOriginal ++
    " shards for " ++ label

/-- Body of the configuration loop (lines 52-117) for one
`(label, size), (num_original, num_recovery)` pair: slice the shared buffer
to the padded size, partition it, skip with a diagnostic on a shard-count
mismatch, otherwise run the three timed trials and build the report. -/
def runConfig (E : Engine ε Enc Dec) (maxData : List Nat)
    (encTime decTime : Nat → ℚ) (label : String)
    (size numOriginal numRecovery : Nat) :
    Except (CallSite × ε) ConfigOutcome :=
  let padded := calculate_padded_size size numOriginal
  let data := maxData.take padded
  let original := chunks (padded / numOriginal) data
  if original.length ≠ numOriginal then
    .ok (.skipped (skipMessage numOriginal label))
  else
    match runTrials E numOriginal numRecovery (padded / numOriginal) original
        encTime decTime with
    | .error p => .error p
    | .ok tot =>
      .ok (.reported
        { label := label
          numOriginal := numOriginal
          numRecovery := numRecovery
          avgEncode := tot.1 / 3
          avgDecode := tot.2 / 3
          throughputEncode := throughputGiB size (tot.1 / 3)
          throughputDecode := throughputGiB size (tot.2 / 3) })

/-- The nested `for` loops of lines 50-119, flattened to the row-major list
of `(size, shard-config)` pairs the source iterates in order: a panic aborts
the whole loop, a skip contributes its diagnostic and processing continues. -/
def runConfigList (E : Engine ε Enc Dec) (maxData : List Nat)
    (encTime decTime : Nat → ℚ) :
    List ((String × Nat) × (Nat × Nat)) →
      Except (CallSite × ε) (List ConfigOutcome)
  | [] => .ok []
  | (p, q) :: rest =>
    match runConfig E maxData encTime decTime p.1 p.2 q.1 q.2 with
    | .error pe => .error pe
    | .ok o =>
      match runConfigList E maxData encTime decTime rest with
      | .error pe => .error pe
      | .ok os => .ok (o :: os)

/-- The row-major enumeration of the compiled-in benchmark matrix. -/
def benchmark_pairs : List ((String × Nat) × (Nat × Nat)) :=
  sizes.flatMap fun p => shard_configs.map fun q => (p, q)

/-- `encode_decode_benchmark` (lines 19-120): generate the maximum-size
random buffer once, then run every configuration of the matrix against it. -/
def encode_decode_benchmark (E : Engine ε Enc Dec) (rng : Nat → Nat)
    (encTime decTime : Nat → ℚ) :
    Except (CallSite × ε) (List ConfigOutcome) :=
  let maxData := generate_random_data rng max_data_len
  runConfigList E maxData encTime decTime benchmark_pairs

/-- The always-succeeding toy engine on trivial state: used to exercise the
harness control flow in witnesses and counterexamples. Its `encode` returns
no recovery shards and its `decode` returns no reconstructed shards. -/
def okEngine : Engine Nat Unit Unit where
  encoderNew := fun _ _ _ => .ok ()
  addOriginalShard := fun _ _ => .ok ()
  encode := fun _ => .ok []
  decoderNew := fun _ _ _ => .ok ()
  decoderAddOriginal := fun _ _ _ => .ok ()
  decoderAddRecovery := fun _ _ _ => .ok ()
  decode := fun _ => .ok []

/-- Two engine calls with the same success/failure status and, on failure,
the same error value. -/
def sameOutcome (x y : Except ε α) : Prop :=
  match x, y with
  | .ok _, .ok _ => True
  | .error e, .error e' => e = e'
  | _, _ => False

/-- Toy engine whose `decode` returns a garbage shard that matches no slice
of an all-zero source buffer (wrong bytes and wrong length). -/
def badDecodeEngine : Engine Nat Unit Unit :=
  { okEngine with decode := fun _ => .ok [[1]] }

/-- Toy engine whose encoder construction always fails with error value 0:
its first failure happens at the first configuration of the matrix. -/
def failEngine : Engine Nat Unit Unit :=
  { okEngine with encoderNew := fun _ _ _ => .error 0 }

/-- Toy engine whose encoder construction fails (with the same error value 0)
exactly when `num_original = 67`: its first failure happens at the second
configuration of the matrix, after the first one completed. -/
def engineFailAt67 : Engine Nat Unit Unit :=
  { okEngine with encoderNew := fun n _ _ => if n = 67 then .error 0 else .ok () }

theorem ceilDivSpec_spec (s n : Nat) (hs : 1 ≤ s) (hn : 1 ≤ n) :
    s ≤ ceilDivSpec s n * n ∧ ceilDivSpec s n * n < s + n := by
  have h := Nat.div_add_mod (s + n - 1) n
  have hmod : (s + n - 1) % n < n := Nat.mod_lt _ hn
  unfold ceilDivSpec
  rw [Nat.mul_comm]
  omega

theorem roundUpToMultipleOf_spec (x : Nat) :
    x ≤ roundUpToMultipleOf x 64 ∧ roundUpToMultipleOf x 64 % 64 = 0 ∧
      roundUpToMultipleOf x 64 < x + 64 := by
  have h := Nat.div_add_mod (x + 63) 64
  have hmod : (x + 63) % 64 < 64 := Nat.mod_lt _ (by omega)
  refine ⟨?_, Nat.mul_mod_left _ _, ?_⟩ <;>
    · unfold roundUpToMultipleOf
      rw [Nat.mul_comm]
      omega

/-- C1, general part: `calculate_padded_size S N` is exactly
`roundUpToMultipleOf (ceil (S/N)) 64 * N`, with the two spec-side helpers
characterised so that they really denote ceiling division and round-up. -/
theorem calculate_padded_size_eq_spec (s n : Nat) (hs : 1 ≤ s) (hn : 1 ≤ n) :
    calculate_padded_size s n = roundUpToMultipleOf (ceilDivSpec s n) 64 * n ∧
      (s ≤ ceilDivSpec s n * n ∧ ceilDivSpec s n * n < s + n) ∧
      (ceilDivSpec s n ≤ roundUpToMultipleOf (ceilDivSpec s n) 64 ∧
        roundUpToMultipleOf (ceilDivSpec s n) 64 % 64 = 0 ∧
        roundUpToMultipleOf (ceilDivSpec s n) 64 < ceilDivSpec s n + 64) :=
  ⟨rfl, ceilDivSpec_spec s n hs hn,
    (roundUpToMultipleOf_spec _).1,
    (roundUpToMultipleOf_spec _).2.1,
    (roundUpToMultipleOf_spec _).2.2⟩

end RsBench

namespace RsBench

/-- C1: for every `S ≥ 1`, `N ≥ 1`, `calculate_padded_size` follows the spec's
`shardSize * N` formula with `shardSize = roundUpToMultipleOf (ceil (S/N)) 64`,
and on the concrete 1 MB / N = 21 scenario the base shard is 49,933, the shard
size 49,984 and the padded size 1,049,664. -/
theorem C1_padded_size_formula (s n : Nat) (hs : 1 ≤ s) (hn : 1 ≤ n) :
    (calculate_padded_size s n = roundUpToMultipleOf (ceilDivSpec s n) 64 * n ∧
      s ≤ ceilDivSpec s n * n ∧ ceilDivSpec s n * n < s + n ∧
      ceilDivSpec s n ≤ roundUpToMultipleOf (ceilDivSpec s n) 64 ∧
      roundUpToMultipleOf (ceilDivSpec s n) 64 % 64 = 0 ∧
      roundUpToMultipleOf (ceilDivSpec s n) 64 < ceilDivSpec s n + 64) ∧
    ceilDivSpec 1048576 21 = 49933 ∧
    roundUpToMultipleOf 49933 64 = 49984 ∧
    calculate_padded_size 1048576 21 = 1049664 := by
  obtain ⟨h1, ⟨h2, h3⟩, h4, h5, h6⟩ := calculate_padded_size_eq_spec s n hs hn
  exact ⟨⟨h1, h2, h3, h4, h5, h6⟩, by decide, by decide, by decide⟩

/-- Witness for C1 at `S = 1048576`, `N = 21`. -/
theorem C1_padded_size_formula_witness :
    calculate_padded_size 1048576 21 =
      roundUpToMultipleOf (ceilDivSpec 1048576 21) 64 * 21 ∧
    calculate_padded_size 1048576 21 = 1049664 :=
  ⟨(C1_padded_size_formula 1048576 21 (by decide) (by decide)).1.1,
   (C1_padded_size_formula 1048576 21 (by decide) (by decide)).2.2.2⟩

/-- C2: for all `S ≥ 1`, `N ≥ 1`, the padded size is divisible by `N`, the
per-shard size `paddedSize / N` is a multiple of 64, and the padded size is at
least `S`. -/
theorem C2_padding_invariant (s n : Nat) (hs : 1 ≤ s) (hn : 1 ≤ n) :
    calculate_padded_size s n % n = 0 ∧
      (calculate_padded_size s n / n) % 64 = 0 ∧
      s ≤ calculate_padded_size s n := by
  obtain ⟨hceil, _⟩ := ceilDivSpec_spec s n hs hn
  obtain ⟨hle, hmod, _⟩ := roundUpToMultipleOf_spec (ceilDivSpec s n)
  refine ⟨Nat.mul_mod_left _ _, ?_, ?_⟩
  · show (roundUpToMultipleOf (ceilDivSpec s n) 64 * n / n) % 64 = 0
    rw [Nat.mul_div_cancel _ hn]
    exact hmod
  · show s ≤ roundUpToMultipleOf (ceilDivSpec s n) 64 * n
    calc s ≤ ceilDivSpec s n * n := hceil
      _ ≤ roundUpToMultipleOf (ceilDivSpec s n) 64 * n :=
        Nat.mul_le_mul_right n hle

theorem chunksGo_nil (c fuel : Nat) : chunksGo c fuel ([] : List α) = [] := by
  cases fuel <;> rfl

/-- `chunksGo` does not depend on the fuel as long as it covers the length. -/
theorem chunksGo_fuel (c : Nat) (hc : c ≠ 0) :
    ∀ (f₁ f₂ : Nat) (l : List α), l.length ≤ f₁ → l.length ≤ f₂ →
      chunksGo c f₁ l = chunksGo c f₂ l := by
  intro f₁
  induction f₁ with
  | zero =>
    intro f₂ l h1 _
    have hnil : l = [] := List.eq_nil_of_length_eq_zero (Nat.le_zero.mp h1)
    subst hnil
    simp [chunksGo_nil]
  | succ f ih =>
    intro f₂ l h1 h2
    cases l with
    | nil => simp [chunksGo_nil]
    | cons x xs =>
      cases f₂ with
      | zero => simp at h2
      | succ g =>
        show (x :: xs).take c :: chunksGo c f ((x :: xs).drop c) =
          (x :: xs).take c :: chunksGo c g ((x :: xs).drop c)
        simp only [List.length_cons] at h1 h2
        have hd1 : ((x :: xs).drop c).length ≤ f := by
          simp only [List.length_drop, List.length_cons]
          omega
        have hd2 : ((x :: xs).drop c).length ≤ g := by
          simp only [List.length_drop, List.length_cons]
          omega
        rw [ih _ _ hd1 hd2]

theorem chunks_nil (c : Nat) : chunks c ([] : List α) = [] := by
  simp [chunks, chunksGo_nil]

theorem chunks_cons_of_ne (c : Nat) (hc : c ≠ 0) (l : List α) (hl : l ≠ []) :
    chunks c l = l.take c :: chunks c (l.drop c) := by
  cases l with
  | nil => exact absurd rfl hl
  | cons x xs =>
    unfold chunks
    rw [if_neg hc, if_neg hc]
    show (x :: xs).take c :: chunksGo c xs.length ((x :: xs).drop c) = _
    congr 1
    apply chunksGo_fuel c hc
    · simp only [List.length_drop, List.length_cons]
      omega
    · exact Nat.le_refl _

/-- Splitting a buffer whose length is exactly `c * n` gives `n` chunks, all
of length `c`, that concatenate back to the buffer. -/
theorem chunks_exact (c : Nat) (hc : 0 < c) :
    ∀ (n : Nat) (l : List α), l.length = c * n →
      (chunks c l).length = n ∧ (∀ s ∈ chunks c l, s.length = c) ∧
        (chunks c l).flatten = l := by
  intro n
  induction n with
  | zero =>
    intro l hl
    have hnil : l = [] := List.eq_nil_of_length_eq_zero (by simpa using hl)
    subst hnil
    simp [chunks_nil]
  | succ n ih =>
    intro l hl
    rw [Nat.mul_succ] at hl
    have hlne : l ≠ [] := by
      intro h
      subst h
      simp at hl
      omega
    rw [chunks_cons_of_ne c (by omega) l hlne]
    have hdrop : (l.drop c).length = c * n := by
      simp only [List.length_drop]
      omega
    obtain ⟨h1, h2, h3⟩ := ih (l.drop c) hdrop
    have htake : (l.take c).length = c := by
      simp only [List.length_take]
      omega
    refine ⟨by simp [h1], ?_, ?_⟩
    · intro sh hsh
      rcases List.mem_cons.mp hsh with h | h
      · subst h
        exact htake
      · exact h2 sh h
    · simp only [List.flatten, h3]
      exact List.take_append_drop c l

/-- The chunk width used by the harness, `padded_size / num_original_shards`
(lines 56, 75, 93), equals the planner's `shardSize`. -/
theorem padded_div_shards (s n : Nat) (hn : 1 ≤ n) :
    calculate_padded_size s n / n = roundUpToMultipleOf (ceilDivSpec s n) 64 := by
  show roundUpToMultipleOf (ceilDivSpec s n) 64 * n / n = _
  exact Nat.mul_div_cancel _ hn

theorem shard_size_pos (s n : Nat) (hs : 1 ≤ s) (hn : 1 ≤ n) :
    0 < calculate_padded_size s n / n := by
  rw [padded_div_shards s n hn]
  have h1 : 1 ≤ ceilDivSpec s n := by
    unfold ceilDivSpec
    rw [Nat.le_div_iff_mul_le hn]
    omega
  exact Nat.lt_of_lt_of_le Nat.zero_lt_one
    (le_trans h1 (roundUpToMultipleOf_spec _).1)

/-- A buffer of exactly the padded length splits into exactly `n` shards. -/
theorem chunks_count_of_padded (s n : Nat) (hs : 1 ≤ s) (hn : 1 ≤ n)
    (data : List Nat) (hd : data.length = calculate_padded_size s n) :
    (chunks (calculate_padded_size s n / n) data).length = n := by
  have hpos := shard_size_pos s n hs hn
  have hlen : data.length = calculate_padded_size s n / n * n := by
    rw [hd, padded_div_shards s n hn]
    rfl
  exact (chunks_exact _ hpos n data hlen).1

/-- Witness for C2 at `S = 1048576`, `N = 21`. -/
theorem C2_padding_invariant_witness :
    calculate_padded_size 1048576 21 % 21 = 0 ∧
      (calculate_padded_size 1048576 21 / 21) % 64 = 0 ∧
      1048576 ≤ calculate_padded_size 1048576 21 :=
  C2_padding_invariant 1048576 21 (by decide) (by decide)

/-- C5: the random buffer is requested with length
`max_data_len` = max over every `(size, shard-config)` pair of the padded
size (witnessed by the pair that attains it), `generate_random_data` returns
exactly that many bytes, and every configuration's `padded_size` is bounded by
it, so the slice `max_data[..padded_size]` is in bounds. -/
theorem C5_single_max_buffer (rng : Nat → Nat) :
    (generate_random_data rng max_data_len).length = max_data_len ∧
    max_data_len = 2147505216 ∧
    (∀ p ∈ sizes, ∀ q ∈ shard_configs,
        calculate_padded_size p.2 q.1 ≤ max_data_len) ∧
    (∃ p ∈ sizes, ∃ q ∈ shard_configs,
        calculate_padded_size p.2 q.1 = max_data_len) :=
  ⟨by simp [generate_random_data], by decide, by decide, by decide⟩

/-- C7: for all `S ≥ 1`, `N ≥ 1`, chunking a buffer of the padded length by
`padded_size / N` (which equals the planner's `shardSize`) yields exactly `N`
shards of length `shardSize` whose concatenation is the buffer; consequently
the shard-count-mismatch skip branch is never taken for any matrix
configuration fed the `padded_size`-byte slice. -/
theorem C7_partition_invariant (s n : Nat) (hs : 1 ≤ s) (hn : 1 ≤ n)
    (data : List Nat) (hd : data.length = calculate_padded_size s n) :
    calculate_padded_size s n / n = roundUpToMultipleOf (ceilDivSpec s n) 64 ∧
    (chunks (calculate_padded_size s n / n) data).length = n ∧
    (∀ sh ∈ chunks (calculate_padded_size s n / n) data,
        sh.length = calculate_padded_size s n / n) ∧
    (chunks (calculate_padded_size s n / n) data).flatten = data ∧
    (∀ p ∈ sizes, ∀ q ∈ shard_configs, ∀ buf : List Nat,
        buf.length = calculate_padded_size p.2 q.1 →
        (chunks (calculate_padded_size p.2 q.1 / q.1) buf).length = q.1) := by
  have hpos := shard_size_pos s n hs hn
  have hlen : data.length = calculate_padded_size s n / n * n := by
    rw [hd, padded_div_shards s n hn]
    rfl
  obtain ⟨h1, h2, h3⟩ := chunks_exact _ hpos n data hlen
  refine ⟨padded_div_shards s n hn, h1, h2, h3, ?_⟩
  intro p hp q hq buf hbuf
  have hps : 1 ≤ p.2 := by fin_cases hp <;> decide
  have hqn : 1 ≤ q.1 := by fin_cases hq <;> decide
  exact chunks_count_of_padded p.2 q.1 hps hqn buf hbuf

theorem runTrials_ok (E : Engine ε Enc Dec) (n r c : Nat)
    (original : List (List Nat)) (encTime decTime : Nat → ℚ)
    (h : runTrial E n r c original = .ok ()) :
    runTrials E n r c original encTime decTime =
      .ok (encTime 0 + encTime 1 + encTime 2,
           decTime 0 + decTime 1 + decTime 2) := by
  show runTrialsFrom E n r c original encTime decTime [0, 1, 2] (0, 0) = _
  simp [runTrialsFrom, h]

theorem runTrials_error (E : Engine ε Enc Dec) (n r c : Nat)
    (original : List (List Nat)) (encTime decTime : Nat → ℚ)
    (p : CallSite × ε) (h : runTrial E n r c original = .error p) :
    runTrials E n r c original encTime decTime = .error p := by
  show runTrialsFrom E n r c original encTime decTime [0, 1, 2] (0, 0) = _
  simp [runTrialsFrom, h]

theorem runConfig_skip (E : Engine ε Enc Dec) (maxData : List Nat)
    (encTime decTime : Nat → ℚ) (label : String) (size nO nR : Nat)
    (h : (chunks (calculate_padded_size size nO / nO)
        (maxData.take (calculate_padded_size size nO))).length ≠ nO) :
    runConfig E maxData encTime decTime label size nO nR =
      .ok (.skipped (skipMessage nO label)) := by
  simp only [runConfig]
  rw [if_pos h]

theorem runConfig_run (E : Engine ε Enc Dec) (maxData : List Nat)
    (encTime decTime : Nat → ℚ) (label : String) (size nO nR : Nat)
    (h : (chunks (calculate_padded_size size nO / nO)
        (maxData.take (calculate_padded_size size nO))).length = nO) :
    runConfig E maxData encTime decTime label size nO nR =
      match runTrials E nO nR (calculate_padded_size size nO / nO)
          (chunks (calculate_padded_size size nO / nO)
            (maxData.take (calculate_padded_size size nO))) encTime decTime with
      | .error p => .error p
      | .ok tot =>
        .ok (.reported
          { label := label
            numOriginal := nO
            numRecovery := nR
            avgEncode := tot.1 / 3
            avgDecode := tot.2 / 3
            throughputEncode := throughputGiB size (tot.1 / 3)
            throughputDecode := throughputGiB size (tot.2 / 3) }) := by
  simp only [runConfig]
  rw [if_neg (fun hne => hne h)]

theorem runConfigList_cons (E : Engine ε Enc Dec) (maxData : List Nat)
    (encTime decTime : Nat → ℚ) (p : String × Nat) (q : Nat × Nat)
    (rest : List ((String × Nat) × (Nat × Nat))) :
    runConfigList E maxData encTime decTime ((p, q) :: rest) =
      match runConfig E maxData encTime decTime p.1 p.2 q.1 q.2 with
      | .error pe => .error pe
      | .ok o =>
        match runConfigList E maxData encTime decTime rest with
        | .error pe => .error pe
        | .ok os => .ok (o :: os) := by
  rfl

theorem addOriginalShards_decode_irrel (E : Engine ε Enc Dec)
    (d' : Dec → Except ε (List (List Nat))) :
    ∀ (l : List (List Nat)) (enc : Enc),
      addOriginalShards { E with decode := d' } enc l =
        addOriginalShards E enc l := by
  intro l
  induction l with
  | nil => intro enc; rfl
  | cons sh rest ih =>
    intro enc
    unfold addOriginalShards
    dsimp only
    cases E.addOriginalShard enc sh with
    | error e => rfl
    | ok enc2 => exact ih enc2

theorem addDecoderOriginals_decode_irrel (E : Engine ε Enc Dec)
    (d' : Dec → Except ε (List (List Nat))) :
    ∀ (l : List (Nat × List Nat)) (dec : Dec),
      addDecoderOriginals { E with decode := d' } dec l =
        addDecoderOriginals E dec l := by
  intro l
  induction l with
  | nil => intro dec; rfl
  | cons p rest ih =>
    intro dec
    obtain ⟨i, sh⟩ := p
    unfold addDecoderOriginals
    dsimp only
    cases E.decoderAddOriginal dec i sh with
    | error e => rfl
    | ok dec2 => exact ih dec2

theorem addDecoderRecoveries_decode_irrel (E : Engine ε Enc Dec)
    (d' : Dec → Except ε (List (List Nat))) :
    ∀ (l : List (Nat × List Nat)) (dec : Dec),
      addDecoderRecoveries { E with decode := d' } dec l =
        addDecoderRecoveries E dec l := by
  intro l
  induction l with
  | nil => intro dec; rfl
  | cons p rest ih =>
    intro dec
    obtain ⟨i, sh⟩ := p
    unfold addDecoderRecoveries
    dsimp only
    cases E.decoderAddRecovery dec i sh with
    | error e => rfl
    | ok dec2 => exact ih dec2

/-- The result of a trial does not depend on the shards the decoder returns,
only on whether `decode` fails and with which error: line 106 discards the
decoded value. -/
theorem runTrial_decode_irrel (E : Engine ε Enc Dec)
    (d' : Dec → Except ε (List (List Nat)))
    (hsame : ∀ dec, sameOutcome (E.decode dec) (d' dec))
    (n r c : Nat) (original : List (List Nat)) :
    runTrial { E with decode := d' } n r c original =
      runTrial E n r c original := by
  unfold runTrial
  dsimp only
  cases E.encoderNew n r c with
  | error e => rfl
  | ok enc =>
    dsimp only
    rw [addOriginalShards_decode_irrel E d']
    cases addOriginalShards E enc original with
    | error p => rfl
    | ok enc2 =>
      dsimp only
      cases E.encode enc2 with
      | error e => rfl
      | ok recovery =>
        dsimp only
        cases E.decoderNew n r c with
        | error e => rfl
        | ok dec =>
          dsimp only
          rw [addDecoderOriginals_decode_irrel E d']
          cases addDecoderOriginals E dec (decodeOriginalInput original r) with
          | error p => rfl
          | ok dec2 =>
            dsimp only
            rw [addDecoderRecoveries_decode_irrel E d']
            cases addDecoderRecoveries E dec2 (decodeRecoveryInput recovery) with
            | error p => rfl
            | ok dec3 =>
              dsimp only
              have hs := hsame dec3
              cases hx : E.decode dec3 with
              | error e =>
                cases hy : d' dec3 with
                | error e2 =>
                  rw [hx, hy] at hs
                  simp only [sameOutcome] at hs
                  rw [hs]
                | ok v =>
                  rw [hx, hy] at hs
                  simp only [sameOutcome] at hs
              | ok v =>
                cases hy : d' dec3 with
                | error e2 =>
                  rw [hx, hy] at hs
                  simp only [sameOutcome] at hs
                | ok v2 => rfl

theorem runTrialsFrom_decode_irrel (E : Engine ε Enc Dec)
    (d' : Dec → Except ε (List (List Nat)))
    (hsame : ∀ dec, sameOutcome (E.decode dec) (d' dec))
    (n r c : Nat) (original : List (List Nat)) (encTime decTime : Nat → ℚ) :
    ∀ (trials : List Nat) (tot : ℚ × ℚ),
      runTrialsFrom { E with decode := d' } n r c original encTime decTime
          trials tot =
        runTrialsFrom E n r c original encTime decTime trials tot := by
  intro trials
  induction trials with
  | nil => intro tot; rfl
  | cons i rest ih =>
    intro tot
    unfold runTrialsFrom
    rw [runTrial_decode_irrel E d' hsame]
    cases runTrial E n r c original with
    | error p => rfl
    | ok u => exact ih _

theorem runTrials_decode_irrel (E : Engine ε Enc Dec)
    (d' : Dec → Except ε (List (List Nat)))
    (hsame : ∀ dec, sameOutcome (E.decode dec) (d' dec))
    (n r c : Nat) (original : List (List Nat)) (encTime decTime : Nat → ℚ) :
    runTrials { E with decode := d' } n r c original encTime decTime =
      runTrials E n r c original encTime decTime :=
  runTrialsFrom_decode_irrel E d' hsame n r c original encTime decTime
    (List.range 3) (0, 0)

theorem runConfig_decode_irrel (E : Engine ε Enc Dec)
    (d' : Dec → Except ε (List (List Nat)))
    (hsame : ∀ dec, sameOutcome (E.decode dec) (d' dec))
    (maxData : List Nat) (encTime decTime : Nat → ℚ) (label : String)
    (size nO nR : Nat) :
    runConfig { E with decode := d' } maxData encTime decTime label size nO nR =
      runConfig E maxData encTime decTime label size nO nR := by
  by_cases hc : (chunks (calculate_padded_size size nO / nO)
      (maxData.take (calculate_padded_size size nO))).length = nO
  · rw [runConfig_run _ maxData encTime decTime label size nO nR hc,
      runConfig_run E maxData encTime decTime label size nO nR hc,
      runTrials_decode_irrel E d' hsame]
  · rw [runConfig_skip _ maxData encTime decTime label size nO nR hc,
      runConfig_skip E maxData encTime decTime label size nO nR hc]

theorem runConfigList_decode_irrel (E : Engine ε Enc Dec)
    (d' : Dec → Except ε (List (List Nat)))
    (hsame : ∀ dec, sameOutcome (E.decode dec) (d' dec))
    (maxData : List Nat) (encTime decTime : Nat → ℚ) :
    ∀ pairs : List ((String × Nat) × (Nat × Nat)),
      runConfigList { E with decode := d' } maxData encTime decTime pairs =
        runConfigList E maxData encTime decTime pairs := by
  intro pairs
  induction pairs with
  | nil => rfl
  | cons pq rest ih =>
    obtain ⟨p, q⟩ := pq
    rw [runConfigList_cons, runConfigList_cons,
      runConfig_decode_irrel E d' hsame, ih]

/-- The whole benchmark output is invariant under arbitrary changes to the
shards `decode` reconstructs: the harness never reads them. -/
theorem benchmark_decode_irrel (E : Engine ε Enc Dec)
    (d' : Dec → Except ε (List (List Nat)))
    (hsame : ∀ dec, sameOutcome (E.decode dec) (d' dec))
    (rng : Nat → Nat) (encTime decTime : Nat → ℚ) :
    encode_decode_benchmark { E with decode := d' } rng encTime decTime =
      encode_decode_benchmark E rng encTime decTime := by
  unfold encode_decode_benchmark
  exact runConfigList_decode_irrel E d' hsame
    (generate_random_data rng max_data_len) encTime decTime benchmark_pairs

/-- Witness for C7 at `S = 1`, `N = 1` on the 64-byte zero buffer. -/
theorem C7_partition_invariant_witness :
    (chunks (calculate_padded_size 1 1 / 1) (List.replicate 64 0)).length = 1 ∧
    (chunks (calculate_padded_size 1 1 / 1) (List.replicate 64 0)).flatten =
      List.replicate 64 0 :=
  ⟨(C7_partition_invariant 1 1 (by decide) (by decide) (List.replicate 64 0)
      (by decide)).2.1,
   (C7_partition_invariant 1 1 (by decide) (by decide) (List.replicate 64 0)
      (by decide)).2.2.2.1⟩

/-- C3: in the decode stage, the original shards supplied to the decoder are
exactly the ones with indices `num_recovery .. num_original - 1`, carried with
their original indices (the first `num_recovery` are withheld); all
`num_recovery` recovery shards are supplied; and in total exactly
`num_original` shards reach the decoder. -/
theorem C3_recoverable_subset (original recovery : List (List Nat)) (n r : Nat)
    (ho : original.length = n) (hr : recovery.length = r) (hrn : r ≤ n) :
    (decodeOriginalInput original r).map Prod.fst = (List.range n).drop r ∧
    (∀ i sh, i < r → (i, sh) ∉ decodeOriginalInput original r) ∧
    (∀ j : Nat, (decodeOriginalInput original r)[j]? =
        original[r + j]?.map fun sh => (r + j, sh)) ∧
    (decodeOriginalInput original r).length = n - r ∧
    (decodeRecoveryInput recovery).length = r ∧
    (decodeOriginalInput original r).length +
        (decodeRecoveryInput recovery).length = n := by
  have hget : ∀ j : Nat, (decodeOriginalInput original r)[j]? =
      original[r + j]?.map fun sh => (r + j, sh) := by
    intro j
    unfold decodeOriginalInput
    rw [List.getElem?_drop, List.getElem?_enum]
  have hlen : (decodeOriginalInput original r).length = n - r := by
    unfold decodeOriginalInput
    simp [ho]
  have hrlen : (decodeRecoveryInput recovery).length = r := by
    unfold decodeRecoveryInput
    simp [hr]
  refine ⟨?_, ?_, hget, hlen, hrlen, ?_⟩
  · unfold decodeOriginalInput
    rw [List.map_drop, List.enum_map_fst, ho]
  · intro i sh hi hmem
    obtain ⟨j, hj⟩ := List.mem_iff_getElem?.mp hmem
    rw [hget j] at hj
    cases hx : original[r + j]? with
    | none => rw [hx] at hj; simp at hj
    | some v =>
      rw [hx] at hj
      simp at hj
      omega
  · rw [hlen, hrlen]
    omega

/-- Witness for C3 at `N = 21`, `R = 10` on concrete shard lists. -/
theorem C3_recoverable_subset_witness :
    (decodeOriginalInput (List.replicate 21 ([] : List Nat)) 10).map Prod.fst =
      (List.range 21).drop 10 ∧
    (decodeOriginalInput (List.replicate 21 ([] : List Nat)) 10).length +
        (decodeRecoveryInput (List.replicate 10 ([] : List Nat))).length = 21 :=
  ⟨(C3_recoverable_subset (List.replicate 21 []) (List.replicate 10 []) 21 10
      (by decide) (by decide) (by decide)).1,
   (C3_recoverable_subset (List.replicate 21 []) (List.replicate 10 []) 21 10
      (by decide) (by decide) (by decide)).2.2.2.2.2⟩

/-- C6: when partitioning yields a shard count different from
`num_original`, the configuration produces the diagnostic naming the shard
count and the label, and the loop continues with the remaining
configurations instead of aborting. -/
theorem C6_mismatch_skipped (E : Engine ε Enc Dec) (maxData : List Nat)
    (encTime decTime : Nat → ℚ) (label : String) (size nO nR : Nat)
    (rest : List ((String × Nat) × (Nat × Nat)))
    (h : (chunks (calculate_padded_size size nO / nO)
        (maxData.take (calculate_padded_size size nO))).length ≠ nO) :
    runConfig E maxData encTime decTime label size nO nR =
      .ok (.skipped (skipMessage nO label)) ∧
    skipMessage nO label =
      "Data size too small to divide into " ++ toString nO ++
        " shards for " ++ label ∧
    runConfigList E maxData encTime decTime (((label, size), (nO, nR)) :: rest) =
      (runConfigList E maxData encTime decTime rest).map
        (fun os => ConfigOutcome.skipped (skipMessage nO label) :: os) := by
  refine ⟨runConfig_skip E maxData encTime decTime label size nO nR h, rfl, ?_⟩
  rw [runConfigList_cons,
    runConfig_skip E maxData encTime decTime label size nO nR h]
  cases hrest : runConfigList E maxData encTime decTime rest <;>
    simp [Except.map]

/-- Witness for C6: the empty buffer cannot be partitioned into one 64-byte
shard, so the `("x", 1), (1, 1)` configuration is skipped with its diagnostic
and the (empty) remainder of the matrix still runs. -/
theorem C6_mismatch_skipped_witness :
    runConfig okEngine [] (fun _ => 1) (fun _ => 1) "x" 1 1 1 =
      .ok (.skipped (skipMessage 1 "x")) ∧
    runConfigList okEngine [] (fun _ => 1) (fun _ => 1) [(("x", 1), (1, 1))] =
      (runConfigList okEngine [] (fun _ => 1) (fun _ => 1) []).map
        (fun os => ConfigOutcome.skipped (skipMessage 1 "x") :: os) :=
  ⟨(C6_mismatch_skipped okEngine [] (fun _ => 1) (fun _ => 1) "x" 1 1 1 []
      (by decide)).1,
   (C6_mismatch_skipped okEngine [] (fun _ => 1) (fun _ => 1) "x" 1 1 1 []
      (by decide)).2.2⟩

/-- C8: whenever a configuration completes and reports, the reported averages
are the sum of the three per-trial durations divided by 3 (the loop runs
exactly the trials 0, 1, 2), and each throughput is the logical size divided
by the corresponding average divided by 2^30; the final conjunct records that
the logical and padded sizes genuinely differ on the matrix, so the choice of
numerator is observable. -/
theorem C8_average_and_throughput (E : Engine ε Enc Dec) (maxData : List Nat)
    (encTime decTime : Nat → ℚ) (label : String) (size nO nR : Nat)
    (r : ConfigReport)
    (h : runConfig E maxData encTime decTime label size nO nR =
      .ok (.reported r)) :
    r.avgEncode = (encTime 0 + encTime 1 + encTime 2) / 3 ∧
    r.avgDecode = (decTime 0 + decTime 1 + decTime 2) / 3 ∧
    r.throughputEncode = (size : ℚ) / r.avgEncode / 2 ^ 30 ∧
    r.throughputDecode = (size : ℚ) / r.avgDecode / 2 ^ 30 ∧
    calculate_padded_size 1048576 21 ≠ 1048576 := by
  have hchunks : (chunks (calculate_padded_size size nO / nO)
      (maxData.take (calculate_padded_size size nO))).length = nO := by
    by_contra hne
    rw [runConfig_skip E maxData encTime decTime label size nO nR hne] at h
    simp at h
  rw [runConfig_run E maxData encTime decTime label size nO nR hchunks] at h
  cases hT : runTrial E nO nR (calculate_padded_size size nO / nO)
      (chunks (calculate_padded_size size nO / nO)
        (maxData.take (calculate_padded_size size nO))) with
  | error p =>
    rw [runTrials_error _ _ _ _ _ _ _ _ hT] at h
    simp at h
  | ok u =>
    cases u
    rw [runTrials_ok _ _ _ _ _ _ _ hT] at h
    simp only [Except.ok.injEq, ConfigOutcome.reported.injEq] at h
    subst h
    refine ⟨rfl, rfl, ?_, ?_, by decide⟩ <;>
      · show throughputGiB size _ = _
        unfold throughputGiB
        norm_num

/-- Witness for C8: the always-succeeding toy engine on the `("x", 1), (1, 1)`
configuration with all per-trial durations equal to 1 second. -/
theorem C8_average_and_throughput_witness :
    ({ label := "x", numOriginal := 1, numRecovery := 1,
       avgEncode := ((1 : ℚ) + 1 + 1) / 3, avgDecode := ((1 : ℚ) + 1 + 1) / 3,
       throughputEncode := throughputGiB 1 (((1 : ℚ) + 1 + 1) / 3),
       throughputDecode := throughputGiB 1 (((1 : ℚ) + 1 + 1) / 3) } :
      ConfigReport).avgEncode = ((1 : ℚ) + 1 + 1) / 3 := by
  have h : runConfig okEngine (List.replicate 64 0) (fun _ => 1) (fun _ => 1)
      "x" 1 1 1 =
      .ok (.reported
        { label := "x", numOriginal := 1, numRecovery := 1,
          avgEncode := ((1 : ℚ) + 1 + 1) / 3,
          avgDecode := ((1 : ℚ) + 1 + 1) / 3,
          throughputEncode := throughputGiB 1 (((1 : ℚ) + 1 + 1) / 3),
          throughputDecode := throughputGiB 1 (((1 : ℚ) + 1 + 1) / 3) }) := by
    rw [runConfig_run okEngine (List.replicate 64 0) (fun _ => 1) (fun _ => 1)
        "x" 1 1 1 (by decide),
      runTrials_ok okEngine 1 1 (calculate_padded_size 1 1 / 1)
        (chunks (calculate_padded_size 1 1 / 1)
          ((List.replicate 64 0).take (calculate_padded_size 1 1)))
        (fun _ => 1) (fun _ => 1) (by exact rfl)]
  exact (C8_average_and_throughput okEngine (List.replicate 64 0) (fun _ => 1)
      (fun _ => 1) "x" 1 1 1 _ h).1

/-- C10: the compiled-in size matrix is exactly
`[("1MB", 1048576), ("1GB", 1073741824), ("3GB", 2147483648)]`; the entry
labelled `"3GB"` holds `2 * 1024^3` bytes (2 GiB, not 3 GB), and the
throughput formula divides exactly those bytes by the average duration and
by 2^30. -/
theorem C10_size_matrix :
    sizes = [("1MB", 1048576), ("1GB", 1073741824), ("3GB", 2147483648)] ∧
    (2147483648 : Nat) = 2 * 1024 * 1024 * 1024 ∧
    (2147483648 : Nat) ≠ 3 * 1000 * 1000 * 1000 ∧
    ∀ avg : ℚ, throughputGiB 2147483648 avg =
      (2147483648 : ℚ) / avg / 2 ^ 30 := by
  refine ⟨rfl, rfl, by decide, fun avg => ?_⟩
  unfold throughputGiB
  norm_num

/-- C4 corrected: line 106 discards the result of `decoder.decode()`; no
byte-for-byte comparison of the reconstructed shards against the source
buffer exists anywhere in the harness. Formally, replacing the shards every
`decode` call reconstructs by arbitrary other shards (keeping each call's
success/failure status and error value) leaves the entire benchmark output
unchanged. -/
theorem C4_reconstruction_never_compared (E : Engine ε Enc Dec)
    (d' : Dec → Except ε (List (List Nat)))
    (hsame : ∀ dec, sameOutcome (E.decode dec) (d' dec))
    (rng : Nat → Nat) (encTime decTime : Nat → ℚ) :
    encode_decode_benchmark { E with decode := d' } rng encTime decTime =
      encode_decode_benchmark E rng encTime decTime :=
  benchmark_decode_irrel E d' hsame rng encTime decTime

/-- Witness for C4's amended statement: a decoder returning a garbage shard
versus one returning nothing at all. -/
theorem C4_reconstruction_never_compared_witness :
    encode_decode_benchmark { okEngine with decode := fun _ => .ok [[1]] }
        (fun _ => 0) (fun _ => 1) (fun _ => 1) =
      encode_decode_benchmark okEngine (fun _ => 0) (fun _ => 1) (fun _ => 1) :=
  C4_reconstruction_never_compared okEngine (fun _ => .ok [[1]])
    (fun _ => trivial) (fun _ => 0) (fun _ => 1) (fun _ => 1)

/-- Counterexample to C4 as stated: with the all-zero source buffer, an
engine whose decoder reconstructs the garbage shard `[1]` (wrong bytes and
wrong length for every slice of the source) produces exactly the same
benchmark output as one whose decoder reconstructs nothing: had the harness
compared each reconstructed shard byte-for-byte with the corresponding slice
of the source buffer, these two runs would have to be distinguishable. -/
theorem C4_counterexample :
    encode_decode_benchmark badDecodeEngine (fun _ => 0) (fun _ => 1)
        (fun _ => 1) =
      encode_decode_benchmark okEngine (fun _ => 0) (fun _ => 1) (fun _ => 1) ∧
    badDecodeEngine.decode () = .ok [[1]] ∧
    okEngine.decode () = .ok [] ∧
    ([[1]] : List (List Nat)) ≠ [] :=
  ⟨benchmark_decode_irrel okEngine (fun _ => .ok [[1]]) (fun _ => trivial)
      (fun _ => 0) (fun _ => 1) (fun _ => 1),
   rfl, rfl, by decide⟩

theorem addOriginalShards_ok (E : Engine ε Unit Unit)
    (h : ∀ sh, E.addOriginalShard () sh = .ok ()) :
    ∀ l : List (List Nat), addOriginalShards E () l = .ok () := by
  intro l
  induction l with
  | nil => rfl
  | cons sh rest ih =>
    unfold addOriginalShards
    rw [h sh]
    exact ih

theorem addDecoderOriginals_ok (E : Engine ε Unit Unit)
    (h : ∀ i sh, E.decoderAddOriginal () i sh = .ok ()) :
    ∀ l : List (Nat × List Nat), addDecoderOriginals E () l = .ok () := by
  intro l
  induction l with
  | nil => rfl
  | cons p rest ih =>
    obtain ⟨i, sh⟩ := p
    unfold addDecoderOriginals
    rw [h i sh]
    exact ih

theorem addDecoderRecoveries_ok (E : Engine ε Unit Unit)
    (h : ∀ i sh, E.decoderAddRecovery () i sh = .ok ()) :
    ∀ l : List (Nat × List Nat), addDecoderRecoveries E () l = .ok () := by
  intro l
  induction l with
  | nil => rfl
  | cons p rest ih =>
    obtain ⟨i, sh⟩ := p
    unfold addDecoderRecoveries
    rw [h i sh]
    exact ih

/-- A trial on trivial encoder/decoder state succeeds whenever every engine
operation succeeds. -/
theorem runTrial_ok_of (E : Engine ε Unit Unit) (n r c : Nat)
    (original : List (List Nat))
    (h1 : E.encoderNew n r c = .ok ())
    (h2 : ∀ sh, E.addOriginalShard () sh = .ok ())
    (h3 : E.encode () = .ok [])
    (h4 : E.decoderNew n r c = .ok ())
    (h5 : ∀ i sh, E.decoderAddOriginal () i sh = .ok ())
    (h6 : ∀ i sh, E.decoderAddRecovery () i sh = .ok ())
    (h7 : E.decode () = .ok []) :
    runTrial E n r c original = .ok () := by
  unfold runTrial
  rw [h1]
  dsimp only
  rw [addOriginalShards_ok E h2 original]
  dsimp only
  rw [h3]
  dsimp only
  rw [h4]
  dsimp only
  rw [addDecoderOriginals_ok E h5 _]
  dsimp only
  rw [addDecoderRecoveries_ok E h6 _]
  dsimp only
  rw [h7]

/-- A failing encoder construction is the first `.unwrap()` of a trial. -/
theorem runTrial_encNew_error (E : Engine ε Enc Dec) (n r c : Nat)
    (original : List (List Nat)) (e : ε)
    (h : E.encoderNew n r c = .error e) :
    runTrial E n r c original = .error (.encoderNew, e) := by
  unfold runTrial
  rw [h]

theorem take_maxbuf_length (rng : Nat → Nat) (k : Nat)
    (hk : k ≤ max_data_len) :
    ((generate_random_data rng max_data_len).take k).length = k := by
  simp [generate_random_data]
  omega

theorem chunks_maxbuf (rng : Nat → Nat) (s n : Nat) (hs : 1 ≤ s) (hn : 1 ≤ n)
    (hk : calculate_padded_size s n ≤ max_data_len) :
    (chunks (calculate_padded_size s n / n)
      ((generate_random_data rng max_data_len).take
        (calculate_padded_size s n))).length = n :=
  chunks_count_of_padded s n hs hn _ (take_maxbuf_length rng _ hk)

/-- The row-major matrix as an explicit list. -/
theorem benchmark_pairs_eq :
    benchmark_pairs =
      [(("1MB", 1048576), (21, 10)), (("1MB", 1048576), (67, 33)),
       (("1MB", 1048576), (201, 100)), (("1MB", 1048576), (667, 333)),
       (("1GB", 1073741824), (21, 10)), (("1GB", 1073741824), (67, 33)),
       (("1GB", 1073741824), (201, 100)), (("1GB", 1073741824), (667, 333)),
       (("3GB", 2147483648), (21, 10)), (("3GB", 2147483648), (67, 33)),
       (("3GB", 2147483648), (201, 100)), (("3GB", 2147483648), (667, 333))] :=
  rfl

theorem runConfigList_cons_explicit (E : Engine ε Enc Dec) (maxData : List Nat)
    (encTime decTime : Nat → ℚ) (label : String) (size nO nR : Nat)
    (rest : List ((String × Nat) × (Nat × Nat))) :
    runConfigList E maxData encTime decTime
        (((label, size), (nO, nR)) :: rest) =
      match runConfig E maxData encTime decTime label size nO nR with
      | .error pe => .error pe
      | .ok o =>
        match runConfigList E maxData encTime decTime rest with
        | .error pe => .error pe
        | .ok os => .ok (o :: os) := rfl

theorem runConfigList_cons_error (E : Engine ε Enc Dec) (maxData : List Nat)
    (encTime decTime : Nat → ℚ) (label : String) (size nO nR : Nat)
    (rest : List ((String × Nat) × (Nat × Nat))) (pe : CallSite × ε)
    (h : runConfig E maxData encTime decTime label size nO nR = .error pe) :
    runConfigList E maxData encTime decTime
      (((label, size), (nO, nR)) :: rest) = .error pe := by
  rw [runConfigList_cons_explicit, h]

theorem runConfigList_cons_ok (E : Engine ε Enc Dec) (maxData : List Nat)
    (encTime decTime : Nat → ℚ) (label : String) (size nO nR : Nat)
    (rest : List ((String × Nat) × (Nat × Nat))) (o : ConfigOutcome)
    (h : runConfig E maxData encTime decTime label size nO nR = .ok o) :
    runConfigList E maxData encTime decTime
        (((label, size), (nO, nR)) :: rest) =
      match runConfigList E maxData encTime decTime rest with
      | .error pe => .error pe
      | .ok os => .ok (o :: os) := by
  rw [runConfigList_cons_explicit, h]

/-- After a prefix of successful configurations, a panicking configuration
makes the whole loop (and hence the run) end with that panic: the remaining
configurations are never processed. -/
theorem runConfigList_error_propagates (E : Engine ε Enc Dec)
    (maxData : List Nat) (encTime decTime : Nat → ℚ) :
    ∀ (pre : List ((String × Nat) × (Nat × Nat)))
      (pair : (String × Nat) × (Nat × Nat))
      (post : List ((String × Nat) × (Nat × Nat))) (pe : CallSite × ε),
      (∀ p ∈ pre, ∃ o, runConfig E maxData encTime decTime
        p.1.1 p.1.2 p.2.1 p.2.2 = .ok o) →
      runConfig E maxData encTime decTime pair.1.1 pair.1.2 pair.2.1 pair.2.2 =
        .error pe →
      runConfigList E maxData encTime decTime (pre ++ pair :: post) =
        .error pe := by
  intro pre
  induction pre with
  | nil =>
    intro pair post pe _ herr
    obtain ⟨p, q⟩ := pair
    dsimp only at herr
    rw [List.nil_append, runConfigList_cons, herr]
  | cons hd rest ih =>
    intro pair post pe hok herr
    obtain ⟨p, q⟩ := hd
    rw [List.cons_append, runConfigList_cons]
    obtain ⟨o, ho⟩ := hok (p, q) (List.mem_cons_self _ _)
    dsimp only at ho
    rw [ho]
    dsimp only
    rw [ih pair post pe (fun x hx => hok x (List.mem_cons_of_mem _ hx)) herr]

/-- C9 corrected: an engine failure at any fallible call site aborts the
entire run — after any prefix of completed configurations, the first
configuration whose engine call fails turns the whole loop result into the
panic, and no later configuration is processed. The panic payload is the
failing call site (hence the operation, as a Rust panic reports its source
location) together with the engine's error value; it does not name the
offending configuration (see the counterexample). The second conjunct ties
the loop to the program's entry point. -/
theorem C9_engine_failure_fatal (E : Engine ε Enc Dec) (maxData : List Nat)
    (encTime decTime : Nat → ℚ)
    (pre : List ((String × Nat) × (Nat × Nat)))
    (pair : (String × Nat) × (Nat × Nat))
    (post : List ((String × Nat) × (Nat × Nat))) (pe : CallSite × ε)
    (hok : ∀ p ∈ pre, ∃ o, runConfig E maxData encTime decTime
      p.1.1 p.1.2 p.2.1 p.2.2 = .ok o)
    (herr : runConfig E maxData encTime decTime pair.1.1 pair.1.2 pair.2.1
      pair.2.2 = .error pe) :
    runConfigList E maxData encTime decTime (pre ++ pair :: post) =
      .error pe ∧
    ∀ (E2 : Engine ε Enc Dec) (rng : Nat → Nat) (tE tD : Nat → ℚ),
      encode_decode_benchmark E2 rng tE tD =
        runConfigList E2 (generate_random_data rng max_data_len) tE tD
          benchmark_pairs :=
  ⟨runConfigList_error_propagates E maxData encTime decTime pre pair post pe
      hok herr,
   fun _ _ _ _ => rfl⟩

/-- Witness for C9's amended statement: an engine that fails encoder
construction panics the one-configuration loop. -/
theorem C9_engine_failure_fatal_witness :
    runConfigList failEngine (List.replicate 64 0) (fun _ => 1) (fun _ => 1)
      [(("x", 1), (1, 1))] = .error (CallSite.encoderNew, 0) := by
  have herr : runConfig failEngine (List.replicate 64 0) (fun _ => 1)
      (fun _ => 1) "x" 1 1 1 = .error (CallSite.encoderNew, 0) := by
    rw [runConfig_run failEngine (List.replicate 64 0) (fun _ => 1)
        (fun _ => 1) "x" 1 1 1 (by decide),
      runTrials_error failEngine 1 1 (calculate_padded_size 1 1 / 1)
        (chunks (calculate_padded_size 1 1 / 1)
          ((List.replicate 64 0).take (calculate_padded_size 1 1)))
        (fun _ => 1) (fun _ => 1) (CallSite.encoderNew, 0)
        (runTrial_encNew_error failEngine 1 1 _ _ 0 rfl)]
  exact (C9_engine_failure_fatal failEngine (List.replicate 64 0) (fun _ => 1)
    (fun _ => 1) [] (("x", 1), (1, 1)) [] (CallSite.encoderNew, 0)
    (fun p hp => absurd hp (List.not_mem_nil p)) herr).1

/-- Counterexample to C9 as stated: two full benchmark runs abort with the
*identical* panic payload `(encoderNew, 0)` although the offending
configuration differs — `failEngine` fails at the first configuration
`("1MB", 21, 10)`, while `engineFailAt67` completes that configuration and
fails at the second, `("1MB", 67, 33)`. The panic therefore does not
identify the offending configuration. -/
theorem C9_counterexample :
    encode_decode_benchmark failEngine (fun _ => 0) (fun _ => 1) (fun _ => 1) =
      .error (CallSite.encoderNew, 0) ∧
    encode_decode_benchmark engineFailAt67 (fun _ => 0) (fun _ => 1)
        (fun _ => 1) = .error (CallSite.encoderNew, 0) ∧
    runConfig failEngine (generate_random_data (fun _ => 0) max_data_len)
      (fun _ => 1) (fun _ => 1) "1MB" 1048576 21 10 =
        .error (CallSite.encoderNew, 0) ∧
    (∃ rep, runConfig engineFailAt67
      (generate_random_data (fun _ => 0) max_data_len)
      (fun _ => 1) (fun _ => 1) "1MB" 1048576 21 10 = .ok (.reported rep)) ∧
    runConfig engineFailAt67 (generate_random_data (fun _ => 0) max_data_len)
      (fun _ => 1) (fun _ => 1) "1MB" 1048576 67 33 =
        .error (CallSite.encoderNew, 0) := by
  have hfail1 : runConfig failEngine
      (generate_random_data (fun _ => 0) max_data_len)
      (fun _ => 1) (fun _ => 1) "1MB" 1048576 21 10 =
        .error (CallSite.encoderNew, 0) := by
    rw [runConfig_run failEngine _ (fun _ => 1) (fun _ => 1) "1MB" 1048576 21 10
        (chunks_maxbuf (fun _ => 0) 1048576 21 (by decide) (by decide)
          (by decide)),
      runTrials_error failEngine 21 10 (calculate_padded_size 1048576 21 / 21)
        (chunks (calculate_padded_size 1048576 21 / 21)
          ((generate_random_data (fun _ => 0) max_data_len).take
            (calculate_padded_size 1048576 21)))
        (fun _ => 1) (fun _ => 1) (CallSite.encoderNew, 0)
        (runTrial_encNew_error failEngine 21 10 _ _ 0 rfl)]
  have h67ok : runConfig engineFailAt67
      (generate_random_data (fun _ => 0) max_data_len)
      (fun _ => 1) (fun _ => 1) "1MB" 1048576 21 10 =
        .ok (.reported
          { label := "1MB", numOriginal := 21, numRecovery := 10,
            avgEncode := ((1 : ℚ) + 1 + 1) / 3,
            avgDecode := ((1 : ℚ) + 1 + 1) / 3,
            throughputEncode := throughputGiB 1048576 (((1 : ℚ) + 1 + 1) / 3),
            throughputDecode :=
              throughputGiB 1048576 (((1 : ℚ) + 1 + 1) / 3) }) := by
    rw [runConfig_run engineFailAt67 _ (fun _ => 1) (fun _ => 1) "1MB" 1048576
        21 10
        (chunks_maxbuf (fun _ => 0) 1048576 21 (by decide) (by decide)
          (by decide)),
      runTrials_ok engineFailAt67 21 10 (calculate_padded_size 1048576 21 / 21)
        (chunks (calculate_padded_size 1048576 21 / 21)
          ((generate_random_data (fun _ => 0) max_data_len).take
            (calculate_padded_size 1048576 21)))
        (fun _ => 1) (fun _ => 1)
        (runTrial_ok_of engineFailAt67 21 10 _ _ rfl (fun _ => rfl) rfl rfl
          (fun _ _ => rfl) (fun _ _ => rfl) rfl)]
  have hfail2 : runConfig engineFailAt67
      (generate_random_data (fun _ => 0) max_data_len)
      (fun _ => 1) (fun _ => 1) "1MB" 1048576 67 33 =
        .error (CallSite.encoderNew, 0) := by
    rw [runConfig_run engineFailAt67 _ (fun _ => 1) (fun _ => 1) "1MB" 1048576
        67 33
        (chunks_maxbuf (fun _ => 0) 1048576 67 (by decide) (by decide)
          (by decide)),
      runTrials_error engineFailAt67 67 33 (calculate_padded_size 1048576 67 / 67)
        (chunks (calculate_padded_size 1048576 67 / 67)
          ((generate_random_data (fun _ => 0) max_data_len).take
            (calculate_padded_size 1048576 67)))
        (fun _ => 1) (fun _ => 1) (CallSite.encoderNew, 0)
        (runTrial_encNew_error engineFailAt67 67 33 _ _ 0 rfl)]
  refine ⟨?_, ?_, hfail1, ⟨_, h67ok⟩, hfail2⟩
  · show runConfigList failEngine
      (generate_random_data (fun _ => 0) max_data_len)
      (fun _ => 1) (fun _ => 1) benchmark_pairs = _
    rw [benchmark_pairs_eq,
      runConfigList_cons_error failEngine _ _ _ "1MB" 1048576 21 10 _ _ hfail1]
  · show runConfigList engineFailAt67
      (generate_random_data (fun _ => 0) max_data_len)
      (fun _ => 1) (fun _ => 1) benchmark_pairs = _
    rw [benchmark_pairs_eq,
      runConfigList_cons_ok engineFailAt67 _ _ _ "1MB" 1048576 21 10 _ _ h67ok,
      runConfigList_cons_error engineFailAt67 _ _ _ "1MB" 1048576 67 33 _ _
        hfail2]

end RsBench
